import Mathlib

/-!
Verification of the instruction-to-operation translation and validated-apply
engine of `src/excel_automation/excel_handler.py`.

The Python code is shallowly embedded: strings are Lean `String`s (processed
as `List Char`), Python exceptions (`ValueError` from `_parse_cell_reference`,
tuple-unpack errors) become `Except String`, and the `xlwings` workbook
collaborator is modelled as an explicit `Doc` record whose fields record the
setter calls the engine makes (the workbook itself is an external process and
only the calls the engine issues are observable at this boundary).

Modelling notes:
  * `str.isdigit` / `str.isalpha` / `\w` are modelled over ASCII; the inputs
    the engine manipulates (cell addresses, instruction keywords) are ASCII.
  * `re.match(r"([A-Z]+)([0-9]+)", s)` anchors at the start only; since the
    character classes are disjoint, greedy matching is equivalent to taking
    the maximal leading run of uppercase letters followed by the maximal run
    of digits.  `re.search` is modelled by trying the anchored match at every
    suffix, leftmost first, which is exactly Python's search order.
-/

namespace ExcelAutomation

/-- ASCII uppercase letter, the regex class `[A-Z]`. -/
def isUpperAZ (c : Char) : Bool := 65 ≤ c.toNat && c.toNat ≤ 90

/-- ASCII lowercase letter, `[a-z]`. -/
def isLowerAZ (c : Char) : Bool := 97 ≤ c.toNat && c.toNat ≤ 122

/-- ASCII digit, the regex class `[0-9]` (also `\d`). -/
def isDigit09 (c : Char) : Bool := 48 ≤ c.toNat && c.toNat ≤ 57

/-- ASCII word character, the regex class `\w`. -/
def isWordChar (c : Char) : Bool :=
  isUpperAZ c || isLowerAZ c || isDigit09 c || c.toNat == 95

/-- ASCII letter, for Python `str.isalpha`. -/
def isLetterAscii (c : Char) : Bool := isUpperAZ c || isLowerAZ c

/-- Python `s.isdigit()` (ASCII fragment): nonempty and all digits. -/
def pyIsDigitL (l : List Char) : Bool := !l.isEmpty && l.all isDigit09

/-- Python `s.isalpha()` (ASCII fragment): nonempty and all letters. -/
def pyIsAlphaL (l : List Char) : Bool := !l.isEmpty && l.all isLetterAscii

/-- Value of a nonempty digit string, Python `int(s)` on the digit strings
the engine extracts (no sign, no surrounding whitespace). -/
def natOfDigits (l : List Char) : Nat :=
  l.foldl (fun n c => n * 10 + (c.toNat - 48)) 0

/-- Python `c in s` for a single character. -/
def containsChar (c : Char) (l : List Char) : Bool := l.any (fun x => x == c)

/-- Python `needle in hay` substring test. -/
def containsSub (needle : List Char) : List Char → Bool
  | [] => needle.isEmpty
  | c :: t => needle.isPrefixOf (c :: t) || containsSub needle t

/-- Python `needle in hay` on strings. -/
def pyIn (needle hay : String) : Bool := containsSub needle.data hay.data

/-- Python `s.split(c)` for a one-character separator (used for `":"`). -/
def splitOnChar (c : Char) : List Char → List (List Char)
  | [] => [[]]
  | a :: t =>
    if a = c then [] :: splitOnChar c t
    else
      match splitOnChar c t with
      | [] => [[a]]
      | h :: r => (a :: h) :: r

/-- Python `s.split(" to ")`: non-overlapping, leftmost-first. -/
def splitTo : List Char → List (List Char)
  | ' ' :: 't' :: 'o' :: ' ' :: rest => [] :: splitTo rest
  | c :: rest =>
    match splitTo rest with
    | [] => [[c]]
    | h :: r => (c :: h) :: r
  | [] => [[]]

/-- String-level `s.split(":")`. -/
def pySplitColon (s : String) : List String := (splitOnChar ':' s.data).map List.asString

/-- String-level `s.split(" to ")`. -/
def pySplitTo (s : String) : List String := (splitTo s.data).map List.asString

/-- Python `s.split(" to ")[-1]` (the whole string when `" to "` is absent). -/
def lastToSegment (s : String) : String := ((splitTo s.data).getLast?.getD []).asString

/-- True exactly on `Except.error`, i.e. the Python call raised. -/
def isError {ε α : Type} : Except ε α → Bool
  | .error _ => true
  | .ok _ => false

/-- Method `ExcelHandler._parse_cell_reference`.  Returns the pieces the Python code
returns: the `":"` branch returns `cell_ref.split(':')` (a list), the other
branches return the 2-tuple as a 2-element list.  A raised `ValueError`
becomes `Except.error` carrying the exception message. -/
def parse_cell_reference (cell_ref : String) : Except String (List String) :=
  let l := cell_ref.data
  -- Handle column-only references (e.g., 'A:A')
  if containsChar ':' l then .ok (pySplitColon cell_ref)
  -- Handle row-only references (e.g., '5:5')
  else if pyIsDigitL l then
    let row_num := natOfDigits l
    if row_num < 1 || row_num > 1048576 then
      .error ("Invalid row number: " ++ toString row_num)
    else .ok [cell_ref, cell_ref]
  -- Handle single column (e.g., 'A')
  else if pyIsAlphaL l then
    if l.length > 3 then .error ("Invalid column reference: " ++ cell_ref)
    else .ok [cell_ref, cell_ref]
  -- Handle normal cell references (e.g., 'A1'): re.match(r"([A-Z]+)([0-9]+)", _)
  else
    let col := l.takeWhile isUpperAZ
    let rest := l.drop col.length
    let row := rest.takeWhile isDigit09
    if col.isEmpty || row.isEmpty then
      .error ("Invalid cell reference format: " ++ cell_ref)
    else
      let row_num := natOfDigits row
      if col.length > 3 then .error ("Invalid column reference: " ++ col.asString)
      else if row_num < 1 || row_num > 1048576 then
        .error ("Invalid row number: " ++ toString row_num)
      else .ok [col.asString, row.asString]

/-! ### Regex searches used by `_parse_change_instruction`

Each `matchXxxAt` is the regex pattern anchored at the start of a suffix;
`scanFind` tries every suffix leftmost-first, which is `re.search`.  All the
patterns alternate disjoint character classes with fixed literals, so greedy
matching with maximal runs is the unique regex match at each position. -/

/-- Try an anchored match at every suffix, leftmost first (`re.search`). -/
def scanFind {α : Type} (f : List Char → Option α) : List Char → Option α
  | [] => f []
  | c :: t =>
    match f (c :: t) with
    | some r => some r
    | none => scanFind f t

/-- Anchored `([A-Z]+[0-9]+)`. -/
def matchCellAt (l : List Char) : Option (List Char) :=
  let u := l.takeWhile isUpperAZ
  if u.isEmpty then none
  else
    let d := (l.drop u.length).takeWhile isDigit09
    if d.isEmpty then none else some (u ++ d)

/-- Anchored `([A-Z]+[0-9]+:[A-Z]+[0-9]+)`. -/
def matchRangeAt (l : List Char) : Option (List Char) :=
  let u1 := l.takeWhile isUpperAZ
  if u1.isEmpty then none
  else
    let r1 := l.drop u1.length
    let d1 := r1.takeWhile isDigit09
    if d1.isEmpty then none
    else
      match r1.drop d1.length with
      | ':' :: r2 =>
        let u2 := r2.takeWhile isUpperAZ
        if u2.isEmpty then none
        else
          let d2 := (r2.drop u2.length).takeWhile isDigit09
          if d2.isEmpty then none
          else some (u1 ++ d1 ++ ':' :: (u2 ++ d2))
      | _ => none

/-- Anchored literal; returns the rest of the input on success. -/
def matchLit (lit l : List Char) : Option (List Char) :=
  if lit.isPrefixOf l then some (l.drop lit.length) else none

/-- Anchored `to ([A-Z]+[0-9]+)`; returns the capture group. -/
def matchToCellAt (l : List Char) : Option (List Char) :=
  match matchLit "to ".data l with
  | none => none
  | some r => matchCellAt r

/-- Anchored `column ([A-Z]+)`; returns the capture group. -/
def matchColumnAt (l : List Char) : Option (List Char) :=
  match matchLit "column ".data l with
  | none => none
  | some r =>
    let u := r.takeWhile isUpperAZ
    if u.isEmpty then none else some u

/-- Anchored `to (\d+)`; returns the capture group. -/
def matchToIntAt (l : List Char) : Option (List Char) :=
  match matchLit "to ".data l with
  | none => none
  | some r =>
    let d := r.takeWhile isDigit09
    if d.isEmpty then none else some d

/-- Anchored `position (\d+)`; returns the capture group. -/
def matchPositionAt (l : List Char) : Option (List Char) :=
  match matchLit "position ".data l with
  | none => none
  | some r =>
    let d := r.takeWhile isDigit09
    if d.isEmpty then none else some d

/-- Anchored `Set ([A-Z]+[0-9]+(?::[A-Z]+[0-9]+)?) formula to`; returns the
capture group.  The optional colon group is tried greedily first, exactly as
the regex engine backtracks. -/
def matchSetFormulaAt (l : List Char) : Option (List Char) :=
  match matchLit "Set ".data l with
  | none => none
  | some r =>
    let u1 := r.takeWhile isUpperAZ
    if u1.isEmpty then none
    else
      let r1 := r.drop u1.length
      let d1 := r1.takeWhile isDigit09
      if d1.isEmpty then none
      else
        let rest := r1.drop d1.length
        match rest with
        | ':' :: r2 =>
          let u2 := r2.takeWhile isUpperAZ
          let d2 := (r2.drop u2.length).takeWhile isDigit09
          if !u2.isEmpty && !d2.isEmpty
              && " formula to".data.isPrefixOf ((r2.drop u2.length).drop d2.length)
          then some (u1 ++ d1 ++ ':' :: (u2 ++ d2))
          else if " formula to".data.isPrefixOf rest then some (u1 ++ d1) else none
        | _ => if " formula to".data.isPrefixOf rest then some (u1 ++ d1) else none

/-- Anchored `range (\w+) for ([A-Z]+[0-9]+:[A-Z]+[0-9]+)`; returns both
capture groups.  `\w` cannot match a space, so the word run is maximal and
`" for "` can only follow it directly. -/
def matchNamedRangeAt (l : List Char) : Option (List Char × List Char) :=
  match matchLit "range ".data l with
  | none => none
  | some r =>
    let w := r.takeWhile isWordChar
    if w.isEmpty then none
    else
      match matchLit " for ".data (r.drop w.length) with
      | none => none
      | some r2 =>
        match matchRangeAt r2 with
        | none => none
        | some g2 => some (w, g2)

/-- Search `re.search(r"([A-Z]+[0-9]+)", s)`, capture group 1. -/
def searchCell (s : String) : Option String :=
  (scanFind matchCellAt s.data).map List.asString

/-- Search `re.search(r"([A-Z]+[0-9]+:[A-Z]+[0-9]+)", s)`, capture group 1. -/
def searchRange (s : String) : Option String :=
  (scanFind matchRangeAt s.data).map List.asString

/-- Search `re.search(r"to ([A-Z]+[0-9]+)", s)`, capture group 1. -/
def searchToCell (s : String) : Option String :=
  (scanFind matchToCellAt s.data).map List.asString

/-- Search `re.search(r"column ([A-Z]+)", s)`, capture group 1. -/
def searchColumn (s : String) : Option String :=
  (scanFind matchColumnAt s.data).map List.asString

/-- Search `re.search(r"to (\d+)", s)`, capture group 1. -/
def searchToInt (s : String) : Option String :=
  (scanFind matchToIntAt s.data).map List.asString

/-- Search `re.search(r"position (\d+)", s)`, capture group 1. -/
def searchPosition (s : String) : Option String :=
  (scanFind matchPositionAt s.data).map List.asString

/-- Search `re.search("Set ([A-Z]+[0-9]+(?::[A-Z]+[0-9]+)?) formula to", s)`. -/
def searchSetFormula (s : String) : Option String :=
  (scanFind matchSetFormulaAt s.data).map List.asString

/-- Search `re.search(r"range (\w+) for ([A-Z]+[0-9]+:[A-Z]+[0-9]+)", s)`. -/
def searchNamedRange (s : String) : Option (String × String) :=
  (scanFind matchNamedRangeAt s.data).map (fun p => (p.1.asString, p.2.asString))

/-! ### `float()` coercion used by `_convert_value`

Python's `float(s)` accepts an optionally signed decimal literal with an
optional exponent, or inf/infinity/nan case-insensitively, surrounded by
whitespace.  (Digit-group underscores and non-ASCII digits are not modelled;
no claim depends on the conversion.) -/

/-- ASCII whitespace stripped by `float()`. -/
def isPySpace (c : Char) : Bool := (9 ≤ c.toNat && c.toNat ≤ 13) || c.toNat == 32

/-- Strip leading and trailing whitespace. -/
def trimWS (l : List Char) : List Char :=
  ((l.dropWhile isPySpace).reverse.dropWhile isPySpace).reverse

/-- ASCII lowercase of a character. -/
def lowerChar (c : Char) : Char :=
  if 65 ≤ c.toNat && c.toNat ≤ 90 then Char.ofNat (c.toNat + 32) else c

/-- Case-insensitive comparison against an ASCII keyword. -/
def eqCaseInsens (l : List Char) (kw : List Char) : Bool :=
  l.map lowerChar == kw

/-- Exponent suffix: empty, or `e`/`E`, optional sign, one or more digits. -/
def expPart : List Char → Bool
  | [] => true
  | e :: r =>
    if e == 'e' || e == 'E' then
      let r2 := match r with
        | '+' :: rr => rr
        | '-' :: rr => rr
        | _ => r
      !r2.isEmpty && r2.all isDigit09
    else false

/-- Unsigned decimal literal with optional fraction and exponent. -/
def decimalLit (l : List Char) : Bool :=
  let i := l.takeWhile isDigit09
  let r1 := l.drop i.length
  match r1 with
  | '.' :: rr =>
    let f := rr.takeWhile isDigit09
    if i.isEmpty && f.isEmpty then false else expPart (rr.drop f.length)
  | _ => if i.isEmpty then false else expPart r1

/-- Body after the optional sign. -/
def floatAfterSign (l : List Char) : Bool :=
  eqCaseInsens l "inf".data || eqCaseInsens l "infinity".data
    || eqCaseInsens l "nan".data || decimalLit l

/-- Whether Python `float(s)` succeeds. -/
def pyFloatOk (s : String) : Bool :=
  match trimWS s.data with
  | [] => false
  | '+' :: r => floatAfterSign r
  | '-' :: r => floatAfterSign r
  | l => floatAfterSign l

/-! ### Data model: `OperationType`, `ExcelChange` -/

/-- Enum `OperationType` of `excel_handler.py`. -/
inductive OperationType where
  | UPDATE
  | FORMULA
  | COPY
  | FORMAT
  | NUMBER_FORMAT
  | COLUMN_WIDTH
  | CLEAR
  | INSERT_ROW
  | DELETE_COLUMN
  | NAMED_RANGE
  deriving DecidableEq, Repr, BEq

/-- The dynamically typed `value` field of `ExcelChange` (`Any` in Python):
a string, a float kept as its source text, the `bold` style dict, an int
width, or `None`. -/
inductive OpValue where
  | vStr (s : String)
  | vNum (s : String)
  | vFmt (bold : Bool)
  | vInt (n : Nat)
  | vNone
  deriving DecidableEq, Repr, BEq

/-- The `ExcelChange` dataclass (the shared class-level timestamp carries no
information and is omitted). -/
structure ExcelChange where
  operation : OperationType
  target : String
  value : OpValue
  status : String := "pending"
  error : Option String := none
  deriving DecidableEq, Repr, BEq

/-- Method `ExcelHandler._convert_value`: float if lexically numeric, else the
string itself. -/
def convert_value (value : String) : OpValue :=
  if pyFloatOk value then .vNum value else .vStr value

/-! ### `_parse_change_instruction` -/

/-- Method `ExcelHandler._parse_change_instruction`.  The Python body is one big
`try`; every internal exception (a `.group(1)` on a failed search raising
`AttributeError`, or the explicit `ValueError` of the named-range branch) is
caught by the function's own handler and becomes `None`, so the embedding is
total into `Option`. -/
def parse_change_instruction (change : String) : Option ExcelChange :=
  if pyIn "Update cell" change then
    match searchCell change with
    | none => none
    | some cell_ref =>
      some { operation := .UPDATE, target := cell_ref,
             value := convert_value (lastToSegment change) }
  else if pyIn "Format" change && pyIn "as header" change then
    match searchRange change with
    | none => none
    | some range_ref => some { operation := .FORMAT, target := range_ref, value := .vFmt true }
  else if pyIn "Set" change && pyIn "number format" change then
    match searchRange change with
    | none => none
    | some range_ref =>
      some { operation := .NUMBER_FORMAT, target := range_ref,
             value := if pyIn "currency" change then .vStr "currency" else .vNone }
  else if pyIn "Set" change && pyIn "formula" change then
    match searchSetFormula change with
    | none => none
    | some range_ref =>
      some { operation := .FORMULA, target := range_ref,
             value := .vStr (lastToSegment change) }
  else if pyIn "Copy range" change then
    match searchRange change, searchToCell change with
    | some source_range, some target_cell =>
      some { operation := .COPY, target := source_range ++ " to " ++ target_cell,
             value := .vNone }
    | _, _ => none
  else if pyIn "Set column" change && pyIn "width" change then
    match searchColumn change, searchToInt change with
    | some column, some width =>
      some { operation := .COLUMN_WIDTH, target := column ++ ":" ++ column,
             value := .vInt (natOfDigits width.data) }
    | _, _ => none
  else if pyIn "Clear contents" change then
    match searchRange change with
    | none => none
    | some range_ref => some { operation := .CLEAR, target := range_ref, value := .vNone }
  else if pyIn "Insert row" change then
    match searchPosition change with
    | none => none
    | some position =>
      some { operation := .INSERT_ROW, target := position ++ ":" ++ position,
             value := .vNone }
  else if pyIn "Delete column" change then
    match searchColumn change with
    | none => none
    | some column =>
      some { operation := .DELETE_COLUMN, target := column ++ ":" ++ column,
             value := .vNone }
  else if pyIn "Create named range" change then
    -- a failed search raises ValueError here, caught by the outer handler
    match searchNamedRange change with
    | none => none
    | some (name, range_ref) =>
      some { operation := .NAMED_RANGE, target := range_ref, value := .vStr name }
  else none

/-! ### `validate_changes` -/

/-- CPython's message for unpacking a list of `n` elements into 2 names
(a `ValueError`, hence caught by the `except ValueError` handler below). -/
def unpackMsg (n : Nat) : String :=
  if 2 < n then "too many values to unpack (expected 2)"
  else "not enough values to unpack (expected 2, got " ++ toString n ++ ")"

/-- The body of the inner `try` of `validate_changes` (lines 176-187): split
compound targets and run each endpoint through `_parse_cell_reference`.
Every exception this body can raise is a `ValueError` (from
`_parse_cell_reference` or from tuple unpacking), surfaced as `.error`. -/
def checkTarget (target : String) : Except String Unit :=
  if containsChar ':' target.data then
    if pyIn " to " target then
      match pySplitTo target with
      | [source, tgt] =>
        match parse_cell_reference ((pySplitColon source).headD "") with
        | .error e => .error e
        | .ok _ =>
          match parse_cell_reference tgt with
          | .error e => .error e
          | .ok _ => .ok ()
      | parts => .error (unpackMsg parts.length)
    else
      match pySplitColon target with
      | [start, stop] =>
        match parse_cell_reference start with
        | .error e => .error e
        | .ok _ =>
          match parse_cell_reference stop with
          | .error e => .error e
          | .ok _ => .ok ()
      | parts => .error (unpackMsg parts.length)
  else
    match parse_cell_reference target with
    | .error e => .error e
    | .ok _ => .ok ()

/-- The error record `validate_changes` synthesizes when the parser returns
`None` (lines 197-203). -/
def invalid_format_change : ExcelChange :=
  { operation := .UPDATE, target := "", value := .vStr "",
    status := "error", error := some "Invalid instruction format" }

/-- One iteration of the `validate_changes` loop.  The only exceptions the
loop body can raise are `ValueError`s, all caught by the `except ValueError`
arm which marks the parsed change as error; the outer `except Exception` arm
(which would synthesize an `UPDATE`/`""`/`""` record with a
"Validation error: ..." message) is unreachable in the pure embedding. -/
def validate_one (change : String) : ExcelChange :=
  match parse_change_instruction change with
  | some excel_change =>
    match checkTarget excel_change.target with
    | .ok _ => { excel_change with status := "valid" }
    | .error e => { excel_change with status := "error", error := some e }
  | none => invalid_format_change

/-- Accumulating loop of `validate_changes`. -/
def validate_changes_loop (validated : List ExcelChange) :
    List String → List ExcelChange
  | [] => validated
  | change :: rest => validate_changes_loop (validated ++ [validate_one change]) rest

/-- Method `ExcelHandler.validate_changes`: run the loop from the empty
accumulator. -/
def validate_changes (changes : List String) : List ExcelChange :=
  validate_changes_loop [] changes

/-! ### The document collaborator and the Transactional Apply Engine

The `xlwings` workbook is an external collaborator (spec section 6): the
engine only issues setter calls against it.  `Doc` records, in call order,
every setter call `_apply_validated_changes` makes; two `Doc`s are equal iff
the same mutations were issued, which stands in for (byte-)equality of the
live/persisted document. -/

/-- Observable state of one worksheet/workbook, as driven through the
collaborator interface of section 6 of the spec. -/
structure Doc where
  values : List (String × OpValue) := []
  formulas : List (String × OpValue) := []
  boldRanges : List String := []
  numberFormats : List (String × String) := []
  colWidths : List (String × OpValue) := []
  cleared : List String := []
  insertedRows : List Nat := []
  deletedCols : List String := []
  copies : List (String × String) := []
  names : List (OpValue × String) := []
  deriving DecidableEq, Repr

/-- State of an `ExcelHandler` with an open workbook: the live in-memory
document, the persisted bytes at the workbook's path, the backup copy (if
`_backup_path` is set and the backup file exists), whether the workbook's
path currently exists on disk, the `dry_run` flag, and `change_history`. -/
structure Handler where
  doc : Doc
  disk : Doc
  backup : Option Doc := none
  fileExists : Bool := true
  dry_run : Bool := false
  change_history : List ExcelChange := []
  deriving DecidableEq, Repr

/-- Environment of one `apply_changes` call: the answer typed at the
confirmation prompt, and whether the filesystem copy inside each of the two
possible `create_backup` calls succeeds (`shutil.copy2` can raise, e.g. when
the backup directory is missing). -/
structure Env where
  confirm : String
  preBackupOk : Bool := true
  postBackupOk : Bool := true
  deriving DecidableEq, Repr

/-- Python `s.lower()` (ASCII). -/
def pyLower (s : String) : String := (s.data.map lowerChar).asString

/-- Method `ExcelHandler.create_backup` with an open workbook: saves the workbook
(persisting the live document), then copies the persisted file to the backup
path.  `ok` is whether the copy succeeds; on failure the exception is caught
and `False` returned, with the save already done and the backup unchanged. -/
def create_backup (ok : Bool) (h : Handler) : Bool × Handler :=
  if ok then (true, { h with disk := h.doc, backup := some h.doc, fileExists := true })
  else (false, { h with disk := h.doc, fileExists := true })

/-- Method `ExcelHandler.restore_from_backup`: when a backup exists, closes the
workbook, deletes the current file, copies the backup bytes back and reopens
the document; without a backup it returns `False`.  (Failure of the copy
itself — the known design gap of spec section 7 — is not modelled; no claim
depends on it.) -/
def restore_from_backup (h : Handler) : Bool × Handler :=
  match h.backup with
  | some b => (true, { h with doc := b, disk := b, fileExists := true })
  | none => (false, h)

/-- One branch of the `for` body of `_apply_validated_changes`: the setter
calls issued for a single validated change.  `Except.error` marks a raised
exception (in the pure embedding only tuple-unpack `ValueError`s and
re-validation failures of named-range endpoints can occur). -/
def apply_op (change : ExcelChange) (doc : Doc) : Except String Doc :=
  match change.operation with
  | .COPY =>
    match pySplitTo change.target with
    | [source, target] => .ok { doc with copies := doc.copies ++ [(source, target)] }
    | parts => .error (unpackMsg parts.length)
  | .UPDATE => .ok { doc with values := doc.values ++ [(change.target, change.value)] }
  | .FORMULA => .ok { doc with formulas := doc.formulas ++ [(change.target, change.value)] }
  | .FORMAT =>
    match change.value with
    | .vFmt b =>
      .ok (if b then { doc with boldRanges := doc.boldRanges ++ [change.target] } else doc)
    | _ => .error "AttributeError: value has no attribute get"
  | .NUMBER_FORMAT =>
    .ok (if change.value == .vStr "currency" then
      { doc with numberFormats := doc.numberFormats ++ [(change.target, "$#,##0.00")] }
    else doc)
  | .COLUMN_WIDTH => .ok { doc with colWidths := doc.colWidths ++ [(change.target, change.value)] }
  | .CLEAR => .ok { doc with cleared := doc.cleared ++ [change.target] }
  | .INSERT_ROW =>
    let p := (pySplitColon change.target).headD ""
    if pyIsDigitL p.data then .ok { doc with insertedRows := doc.insertedRows ++ [natOfDigits p.data] }
    else .error ("invalid literal for int: " ++ p)
  | .DELETE_COLUMN =>
    .ok { doc with deletedCols := doc.deletedCols ++ [(pySplitColon change.target).headD ""] }
  | .NAMED_RANGE =>
    match pySplitColon change.target with
    | [start, stop] =>
      match parse_cell_reference start with
      | .error e => .error e
      | .ok ps =>
        match ps with
        | [start_col, start_row] =>
          match parse_cell_reference stop with
          | .error e => .error e
          | .ok pe =>
            match pe with
            | [end_col, end_row] =>
              .ok { doc with names := doc.names ++
                [(change.value,
                  "=Sheet1!$" ++ start_col ++ "$" ++ start_row
                    ++ ":$" ++ end_col ++ "$" ++ end_row)] }
            | parts => .error (unpackMsg parts.length)
        | parts => .error (unpackMsg parts.length)
    | parts => .error (unpackMsg parts.length)

/-- Method `ExcelHandler._apply_validated_changes`: apply the changes in order; each
success is marked `applied` and appended to the change history; the first
exception abandons the loop (earlier setter calls already issued) and the
function returns `False`. -/
def apply_validated_changes :
    List ExcelChange → Doc → List ExcelChange → Bool × Doc × List ExcelChange
  | [], doc, history => (true, doc, history)
  | change :: rest, doc, history =>
    match apply_op change doc with
    | .error _ => (false, doc, history)
    | .ok doc2 =>
      apply_validated_changes rest doc2 (history ++ [{ change with status := "applied" }])

/-- Method `ExcelHandler.apply_changes` (the list under `'required_changes'` is
passed directly).  Follows the source control flow: empty batch is a no-op
success; backup-before-mutate when the file exists, aborting on backup
failure; whole-batch validation, aborting with no mutation on any error;
dry-run preview; apply; restore on apply failure; interactive confirmation
with restore-and-fail on a non-"y" answer; save and post-commit backup on
acceptance, the call failing if that backup fails. -/
def apply_changes (env : Env) (changes : List String) (h : Handler) : Bool × Handler :=
  if changes.isEmpty then (true, h)
  else
    let step1 := if h.fileExists then create_backup env.preBackupOk h else (true, h)
    if step1.1 = false then (false, step1.2)
    else
      let h1 := step1.2
      let validated := validate_changes changes
      if !(validated.all fun change => change.status == "valid") then (false, h1)
      else if !h1.dry_run then
        let r := apply_validated_changes validated h1.doc h1.change_history
        let h2 := { h1 with doc := r.2.1, change_history := r.2.2 }
        if r.1 = false then
          (false, if h2.backup.isSome then (restore_from_backup h2).2 else h2)
        else if pyLower env.confirm ≠ "y" then
          (false, (restore_from_backup h2).2)
        else
          let h3 := { h2 with disk := h2.doc, fileExists := true }
          let cb := create_backup env.postBackupOk h3
          if cb.1 = false then (false, cb.2) else (true, cb.2)
      else (true, h1)

/-! ## Theorems -/

/-! ### Character-class facts -/

theorem not_digit_of_upper {c : Char} (h : isUpperAZ c = true) : isDigit09 c = false := by
  simp only [isUpperAZ, Bool.and_eq_true, decide_eq_true_eq] at h
  simp only [isDigit09, Bool.and_eq_false_iff, decide_eq_false_iff_not]
  omega

theorem not_digit_of_letter {c : Char} (h : isLetterAscii c = true) : isDigit09 c = false := by
  simp only [isLetterAscii, isUpperAZ, isLowerAZ, Bool.or_eq_true, Bool.and_eq_true,
    decide_eq_true_eq] at h
  simp only [isDigit09, Bool.and_eq_false_iff, decide_eq_false_iff_not]
  omega

theorem not_letter_of_digit {c : Char} (h : isDigit09 c = true) : isLetterAscii c = false := by
  simp only [isDigit09, Bool.and_eq_true, decide_eq_true_eq] at h
  simp only [isLetterAscii, isUpperAZ, isLowerAZ, Bool.or_eq_false_iff,
    Bool.and_eq_false_iff, decide_eq_false_iff_not]
  omega

theorem not_upper_of_digit {c : Char} (h : isDigit09 c = true) : isUpperAZ c = false := by
  simp only [isDigit09, Bool.and_eq_true, decide_eq_true_eq] at h
  simp only [isUpperAZ, Bool.and_eq_false_iff, decide_eq_false_iff_not]
  omega

theorem ne_colon_of_toNat {c : Char} (h : c.toNat ≠ 58) : (c == ':') = false := by
  rw [beq_eq_false_iff_ne]
  intro hc
  exact h (hc ▸ (by decide))

theorem upper_ne_colon {c : Char} (h : isUpperAZ c = true) : (c == ':') = false := by
  apply ne_colon_of_toNat
  simp only [isUpperAZ, Bool.and_eq_true, decide_eq_true_eq] at h
  omega

theorem digit_ne_colon {c : Char} (h : isDigit09 c = true) : (c == ':') = false := by
  apply ne_colon_of_toNat
  simp only [isDigit09, Bool.and_eq_true, decide_eq_true_eq] at h
  omega

theorem letter_ne_colon {c : Char} (h : isLetterAscii c = true) : (c == ':') = false := by
  apply ne_colon_of_toNat
  simp only [isLetterAscii, isUpperAZ, isLowerAZ, Bool.or_eq_true, Bool.and_eq_true,
    decide_eq_true_eq] at h
  omega

/-! ### List scanning facts -/

theorem containsChar_eq_false {c : Char} {l : List Char}
    (h : ∀ x ∈ l, (x == c) = false) : containsChar c l = false := by
  simp only [containsChar, List.any_eq_false]
  intro x hx
  simp [h x hx]

theorem takeWhile_append_all {p : Char → Bool} :
    ∀ (a b : List Char), (∀ x ∈ a, p x = true) →
      (∀ c, b.head? = some c → p c = false) → (a ++ b).takeWhile p = a := by
  intro a
  induction a with
  | nil =>
    intro b _ hb
    cases b with
    | nil => rfl
    | cons c t =>
      simp [List.takeWhile_cons, hb c rfl]
  | cons x xs ih =>
    intro b ha hb
    have hx : p x = true := ha x (by simp)
    simp [List.takeWhile_cons, hx, ih b (fun y hy => ha y (by simp [hy])) hb]

theorem drop_length_append (a b : List Char) : (a ++ b).drop a.length = b := by
  induction a with
  | nil => rfl
  | cons x xs ih => simp [ih]

theorem splitOnChar_of_forall_ne {c : Char} :
    ∀ {l : List Char}, (∀ x ∈ l, (x == c) = false) → splitOnChar c l = [l] := by
  intro l
  induction l with
  | nil => intro _; rfl
  | cons a t ih =>
    intro h
    have ha : (a == c) = false := h a (by simp)
    have hac : ¬ a = c := by simpa [beq_eq_false_iff_ne] using ha
    simp only [splitOnChar, if_neg hac, ih (fun x hx => h x (by simp [hx]))]

theorem splitOnChar_append {c : Char} :
    ∀ (a : List Char) (b : List Char), (∀ x ∈ a, (x == c) = false) →
      splitOnChar c (a ++ c :: b) = a :: splitOnChar c b := by
  intro a
  induction a with
  | nil => intro b _; simp [splitOnChar]
  | cons x xs ih =>
    intro b h
    have hx : ¬ x = c := by
      simpa [beq_eq_false_iff_ne] using h x (by simp)
    simp only [List.cons_append, splitOnChar, if_neg hx, List.append_eq]
    rw [ih b (fun y hy => h y (by simp [hy]))]

theorem asString_data (s : String) : s.data.asString = s := rfl

theorem append_eq_mk (a b : String) : a ++ b = ⟨a.data ++ b.data⟩ := rfl

/-! ### Behaviour of `_parse_cell_reference` on a letters-digits-tail split -/

/-- Core shape lemma: on input whose characters decompose as a nonempty run of
uppercase letters, a nonempty run of digits, and a tail that is colon-free
and does not begin with a digit, `_parse_cell_reference` reaches the regex
branch with exactly those two groups and applies the column/row checks. -/
theorem parse_cell_reference_letters_digits
    (col row tail : List Char)
    (hcol : ∀ x ∈ col, isUpperAZ x = true) (hc0 : col ≠ [])
    (hrow : ∀ x ∈ row, isDigit09 x = true) (hr0 : row ≠ [])
    (htailc : ∀ x ∈ tail, (x == ':') = false)
    (htailh : ∀ c, tail.head? = some c → isDigit09 c = false) :
    parse_cell_reference ⟨col ++ row ++ tail⟩ =
      (if col.length > 3 then
        .error ("Invalid column reference: " ++ col.asString)
      else if natOfDigits row < 1 || natOfDigits row > 1048576 then
        .error ("Invalid row number: " ++ toString (natOfDigits row))
      else .ok [col.asString, row.asString]) := by
  obtain ⟨c0, cs, rfl⟩ := List.exists_cons_of_ne_nil hc0
  obtain ⟨r0, rs, rfl⟩ := List.exists_cons_of_ne_nil hr0
  have hcolon : containsChar ':' ((c0 :: cs) ++ (r0 :: rs) ++ tail) = false := by
    apply containsChar_eq_false
    intro x hx
    rcases List.mem_append.mp hx with hx' | hx'
    · rcases List.mem_append.mp hx' with hx'' | hx''
      · exact upper_ne_colon (hcol x hx'')
      · exact digit_ne_colon (hrow x hx'')
    · exact htailc x hx'
  have hdig : pyIsDigitL ((c0 :: cs) ++ (r0 :: rs) ++ tail) = false := by
    simp only [pyIsDigitL, List.cons_append, List.isEmpty_cons, List.all_cons,
      Bool.not_false, Bool.true_and, Bool.and_eq_false_iff]
    left
    exact not_digit_of_upper (hcol c0 (by simp))
  have halpha : pyIsAlphaL ((c0 :: cs) ++ (r0 :: rs) ++ tail) = false := by
    have hr0mem : r0 ∈ (c0 :: cs) ++ (r0 :: rs) ++ tail := by simp
    simp only [pyIsAlphaL, Bool.and_eq_false_iff]
    right
    rw [List.all_eq_false]
    exact ⟨r0, hr0mem, by simp [not_letter_of_digit (hrow r0 (by simp))]⟩
  have htake1 : ((c0 :: cs) ++ ((r0 :: rs) ++ tail)).takeWhile isUpperAZ = c0 :: cs := by
    apply takeWhile_append_all _ _ hcol
    intro c hc
    simp only [List.cons_append, List.head?_cons, Option.some.injEq] at hc
    subst hc
    exact not_upper_of_digit (hrow r0 (by simp))
  have hdrop1 : ((c0 :: cs) ++ ((r0 :: rs) ++ tail)).drop (c0 :: cs).length
      = (r0 :: rs) ++ tail := drop_length_append _ _
  have htake2 : ((r0 :: rs) ++ tail).takeWhile isDigit09 = r0 :: rs :=
    takeWhile_append_all _ _ hrow htailh
  show parse_cell_reference ⟨(c0 :: cs) ++ (r0 :: rs) ++ tail⟩ = _
  rw [parse_cell_reference]
  simp only [List.append_assoc] at hcolon hdig halpha ⊢
  rw [hcolon, hdig, halpha, htake1, hdrop1, htake2]
  simp [List.isEmpty_cons]

/-! ### Claims about the Address Validator -/

/-- C4: an address reference whose extracted row number lies outside
[1, 1048576] or whose column label is longer than 3 characters makes
`_parse_cell_reference` raise `ValueError` (modelled as `Except.error`);
it never silently clamps or accepts.  The three conjuncts cover the three
extraction paths of the code: a bare digit token (row-only reference), a
bare alphabetic token (column-only reference), and a token that starts with
a letters-then-digits group (single-cell reference; the unanchored
`re.match` extracts the leading group). -/
theorem claim_C4 :
    (∀ s : String, pyIsDigitL s.data = true →
      (natOfDigits s.data < 1 ∨ natOfDigits s.data > 1048576) →
      isError (parse_cell_reference s) = true)
    ∧ (∀ s : String, pyIsAlphaL s.data = true → 3 < s.data.length →
      isError (parse_cell_reference s) = true)
    ∧ (∀ col row tail : String,
      (∀ x ∈ col.data, isUpperAZ x = true) → col.data ≠ [] →
      (∀ x ∈ row.data, isDigit09 x = true) → row.data ≠ [] →
      (∀ x ∈ tail.data, (x == ':') = false) →
      (∀ c, tail.data.head? = some c → isDigit09 c = false) →
      (3 < col.data.length ∨ natOfDigits row.data < 1 ∨ 1048576 < natOfDigits row.data) →
      isError (parse_cell_reference (col ++ row ++ tail)) = true) := by
  refine ⟨?_, ?_, ?_⟩
  · intro s hdig hbound
    have hdig' := hdig
    simp only [pyIsDigitL, Bool.and_eq_true] at hdig
    have hallm : ∀ x ∈ s.data, isDigit09 x = true := List.all_eq_true.mp hdig.2
    have hcolon : containsChar ':' s.data = false :=
      containsChar_eq_false (fun x hx => digit_ne_colon (hallm x hx))
    rw [parse_cell_reference, hcolon, hdig']
    rcases hbound with h | h <;> simp [isError, h]
  · intro s halpha hlen
    have halpha' := halpha
    simp only [pyIsAlphaL, Bool.and_eq_true] at halpha
    have hallm : ∀ x ∈ s.data, isLetterAscii x = true := List.all_eq_true.mp halpha.2
    have hne : s.data ≠ [] := by
      intro h
      rw [h] at halpha
      simpa using halpha.1
    obtain ⟨c0, cs, hdata⟩ := List.exists_cons_of_ne_nil hne
    have hcolon : containsChar ':' s.data = false :=
      containsChar_eq_false (fun x hx => letter_ne_colon (hallm x hx))
    have hdig : pyIsDigitL s.data = false := by
      rw [hdata]
      simp [pyIsDigitL, List.all_cons,
        not_digit_of_letter (hallm c0 (by rw [hdata]; simp))]
    rw [parse_cell_reference, hcolon, hdig, halpha', if_pos hlen]
    rfl
  · intro col row tail hcol hc0 hrow hr0 htailc htailh hviol
    have hmk : col ++ row ++ tail = ⟨col.data ++ row.data ++ tail.data⟩ := rfl
    rw [hmk, parse_cell_reference_letters_digits col.data row.data tail.data
      hcol hc0 hrow hr0 htailc htailh]
    by_cases hc3 : col.data.length > 3
    · rw [if_pos hc3]
      rfl
    · have hb : (decide (natOfDigits row.data < 1)
          || decide (natOfDigits row.data > 1048576)) = true := by
        rcases hviol with h | h | h
        · omega
        · simp [h]
        · simp [h]
      rw [if_neg hc3, hb]
      rfl

/-- C4 witness: a row-only reference `0`, a four-letter column `ABCD`, and
the spec's own scenario `ZZ99999999` all fail validation. -/
theorem claim_C4_witness :
    isError (parse_cell_reference "0") = true ∧
    isError (parse_cell_reference "ABCD") = true ∧
    isError (parse_cell_reference "ZZ99999999") = true := by
  refine ⟨claim_C4.1 "0" (by decide) (Or.inl (by decide)),
    claim_C4.2.1 "ABCD" (by decide) (by decide), ?_⟩
  exact claim_C4.2.2 "ZZ" "99999999" "" (by decide) (by decide) (by decide) (by decide)
    (by intro x hx; cases hx) (by intro c hc; cases hc)
    (Or.inr (Or.inr (by decide)))

/-- Helper: a well-formed letters-then-digits reference within bounds parses
to exactly its two parts. -/
theorem parse_cell_reference_ok_pair (col row : String)
    (hcol : ∀ x ∈ col.data, isUpperAZ x = true) (hc0 : col.data ≠ [])
    (hclen : col.data.length ≤ 3)
    (hrow : ∀ x ∈ row.data, isDigit09 x = true) (hr0 : row.data ≠ [])
    (hlow : 1 ≤ natOfDigits row.data) (hhigh : natOfDigits row.data ≤ 1048576) :
    parse_cell_reference (col ++ row) = .ok [col, row] := by
  have hmk : col ++ row = ⟨col.data ++ row.data ++ []⟩ := by
    rw [List.append_nil]
    rfl
  rw [hmk, parse_cell_reference_letters_digits col.data row.data []
    hcol hc0 hrow hr0 (by intro x hx; cases hx) (by intro c hc; cases hc)]
  have h3 : ¬ col.data.length > 3 := by omega
  have hb : (decide (natOfDigits row.data < 1)
      || decide (natOfDigits row.data > 1048576)) = false := by
    simp only [Bool.or_eq_false_iff, decide_eq_false_iff_not]
    omega
  rw [if_neg h3, hb]
  simp [asString_data]

/-- C5: every single-cell reference of the form letters-then-digits with at
most three uppercase letters and a row number in [1, 1048576] validates
successfully and returns exactly the (column letters, row digits) pair taken
from the input (the Python code returns the row as the digit substring). -/
theorem claim_C5 (col row : String)
    (hcol : ∀ x ∈ col.data, isUpperAZ x = true) (hc0 : col.data ≠ [])
    (hclen : col.data.length ≤ 3)
    (hrow : ∀ x ∈ row.data, isDigit09 x = true) (hr0 : row.data ≠ [])
    (hlow : 1 ≤ natOfDigits row.data) (hhigh : natOfDigits row.data ≤ 1048576) :
    parse_cell_reference (col ++ row) = .ok [col, row] :=
  parse_cell_reference_ok_pair col row hcol hc0 hclen hrow hr0 hlow hhigh

/-- C5 witness: `A2` validates and returns the pair (`A`, `2`). -/
theorem claim_C5_witness : parse_cell_reference "A2" = .ok ["A", "2"] :=
  claim_C5 "A" "2" (by decide) (by decide) (by decide) (by decide) (by decide)
    (by decide) (by decide)

/-- C7 counterexample: the claim says any combined column-plus-row token that
is not exactly letters-then-digits (such as `A1x`) fails validation, but
`re.match` is unanchored at the right end, so `_parse_cell_reference "A1x"`
accepts the token and returns the leading group (`A`, `1`) instead of
raising. -/
theorem claim_C7_counterexample : parse_cell_reference "A1x" = .ok ["A", "1"] := by
  rfl

/-- C7 (amended): a combined column-plus-row token (no colon, not all digits,
not all letters) fails with `InvalidAddress` exactly when it does not BEGIN
with an uppercase-letter run immediately followed by a digit run; trailing
junk after a valid leading group is accepted, not rejected. -/
theorem claim_C7 (s : String)
    (hc : containsChar ':' s.data = false)
    (hd : pyIsDigitL s.data = false)
    (ha : pyIsAlphaL s.data = false)
    (hfail : (s.data.takeWhile isUpperAZ).isEmpty = true ∨
      ((s.data.drop (s.data.takeWhile isUpperAZ).length).takeWhile isDigit09).isEmpty
        = true) :
    isError (parse_cell_reference s) = true := by
  rw [parse_cell_reference, hc, hd, ha]
  rcases hfail with h | h <;> simp [h, isError]

/-- C7 witness: the token `x1` (lowercase column letter) has no leading
uppercase run, and validation rejects it. -/
theorem claim_C7_witness : isError (parse_cell_reference "x1") = true :=
  claim_C7 "x1" (by decide) (by decide) (by decide) (Or.inl (by decide))

theorem validate_changes_loop_eq :
    ∀ (changes : List String) (validated : List ExcelChange),
      validate_changes_loop validated changes = validated ++ changes.map validate_one := by
  intro changes
  induction changes with
  | nil => intro v; simp [validate_changes_loop]
  | cons c rest ih =>
    intro v
    rw [validate_changes_loop, ih]
    simp

/-! ### Claims about the Change Batch Validator -/

/-- C3: `validate_changes` maps its per-line validator over the input, so the
result has the same length as the input with the i-th element the result for
the i-th line, nothing filtered; and every line produces a definite verdict,
status `valid` or status `error` — the embedding is total because every
exception the loop body can raise (a `ValueError` from address validation or
tuple unpacking) is caught and recorded in the error record, never
propagated. -/
theorem claim_C3 (changes : List String) :
    validate_changes changes = changes.map validate_one
    ∧ (validate_changes changes).length = changes.length
    ∧ ∀ line : String,
        (validate_one line).status = "valid" ∨ (validate_one line).status = "error" := by
  refine ⟨?_, ?_, ?_⟩
  · rw [validate_changes, validate_changes_loop_eq]
    simp
  · rw [validate_changes, validate_changes_loop_eq]
    simp
  · intro line
    rw [validate_one]
    rcases parse_change_instruction line with _ | ec
    · right
      rfl
    · rcases hc : checkTarget ec.target with e | u
      · right
        simp [hc]
      · left
        simp [hc]

/-- C3 witness: a concrete three-line batch, one line per verdict kind. -/
theorem claim_C3_witness :
    validate_changes ["Update cell A1 to 5", "Update cell A0 to 5", "nonsense"]
        = ["Update cell A1 to 5", "Update cell A0 to 5", "nonsense"].map validate_one
    ∧ (validate_changes ["Update cell A1 to 5", "Update cell A0 to 5", "nonsense"]).length
        = 3 :=
  ⟨(claim_C3 ["Update cell A1 to 5", "Update cell A0 to 5", "nonsense"]).1,
    (claim_C3 ["Update cell A1 to 5", "Update cell A0 to 5", "nonsense"]).2.1⟩

/-- C10: when the instruction parser returns `None`, the record that
`validate_changes` synthesizes in its place is always
`UPDATE` / target `""` / value `""` (with status `error`), so the original
instruction's kind and target are not recoverable from the record.  (The
unexpected-exception arm of the loop synthesizes the same
`UPDATE`/`""`/`""` shape, lines 209-215 of the source; it is unreachable in
the pure embedding because every internal exception is a `ValueError`.) -/
theorem claim_C10 (line : String) (h : parse_change_instruction line = none) :
    (validate_one line).operation = OperationType.UPDATE
    ∧ (validate_one line).target = ""
    ∧ (validate_one line).value = OpValue.vStr ""
    ∧ (validate_one line).status = "error" := by
  rw [validate_one, h]
  exact ⟨rfl, rfl, rfl, rfl⟩

/-- C10 witness: an unrecognized line yields the fixed error record. -/
theorem claim_C10_witness :
    parse_change_instruction "gibberish" = none
    ∧ (validate_one "gibberish").operation = OperationType.UPDATE
    ∧ (validate_one "gibberish").target = ""
    ∧ (validate_one "gibberish").value = OpValue.vStr "" := by
  have h : parse_change_instruction "gibberish" = none := rfl
  have hc := claim_C10 "gibberish" h
  exact ⟨h, hc.1, hc.2.1, hc.2.2.1⟩

/-- C6 counterexample: the claim says malformed "Create named range"
phrasing raises a parse error rather than returning null, but the explicit
`ValueError` of that branch is caught by `_parse_change_instruction`'s own
`except Exception` handler (lines 508-510), which returns `None`: on the
malformed line below (missing " for ") the parser returns null. -/
theorem claim_C6_counterexample :
    parse_change_instruction "Create named range BaseRevenue A2:A5" = none := by
  rfl

/-- C6 (amended): on a line containing "Create named range" that triggers no
earlier branch and does not match `range (\w+) for ([A-Z]+[0-9]+:[A-Z]+[0-9]+)`,
the parser raises `ValueError` internally but its catch-all converts it to
null — exactly like any other unrecognized line — and the batch validator
then records it as status `error`, "Invalid instruction format". -/
theorem claim_C6 (line : String)
    (h1 : pyIn "Update cell" line = false)
    (h2 : (pyIn "Format" line && pyIn "as header" line) = false)
    (h3 : (pyIn "Set" line && pyIn "number format" line) = false)
    (h4 : (pyIn "Set" line && pyIn "formula" line) = false)
    (h5 : pyIn "Copy range" line = false)
    (h6 : (pyIn "Set column" line && pyIn "width" line) = false)
    (h7 : pyIn "Clear contents" line = false)
    (h8 : pyIn "Insert row" line = false)
    (h9 : pyIn "Delete column" line = false)
    (h10 : pyIn "Create named range" line = true)
    (h11 : searchNamedRange line = none) :
    parse_change_instruction line = none
    ∧ validate_one line = invalid_format_change := by
  have hp : parse_change_instruction line = none := by
    simp only [parse_change_instruction, h1, h2, h3, h4, h5, h6, h7, h8, h9, h10, h11,
      Bool.false_eq_true, if_false, if_true]
  refine ⟨hp, ?_⟩
  rw [validate_one, hp]

/-- C6 witness: a malformed named-range line (missing " for ") parses to
null and validates to the generic invalid-format error record. -/
theorem claim_C6_witness :
    parse_change_instruction "Create named range X A1:B2" = none
    ∧ validate_one "Create named range X A1:B2" = invalid_format_change :=
  claim_C6 "Create named range X A1:B2" rfl rfl rfl rfl rfl rfl rfl rfl rfl rfl rfl
/-! ### Claims about the Transactional Apply Engine -/

/-- C1: a batch in which at least one line validates to status `error` makes
`apply_changes` return `False` before any operation is applied: the live
document and the change history are exactly as before the call (the only
side effect on this path is the pre-apply backup, which saves and copies the
unchanged document). -/
theorem claim_C1 (env : Env) (changes : List String) (h : Handler)
    (herr : ∃ c ∈ validate_changes changes, c.status = "error") :
    (apply_changes env changes h).1 = false
    ∧ ((apply_changes env changes h).2).doc = h.doc
    ∧ ((apply_changes env changes h).2).change_history = h.change_history := by
  obtain ⟨c, hc, hcs⟩ := herr
  have hne : changes.isEmpty = false := by
    cases changes with
    | nil =>
      rw [show validate_changes [] = [] from rfl] at hc
      cases hc
    | cons a rest => rfl
  have hall : ((validate_changes changes).all fun change => change.status == "valid")
      = false := by
    rw [List.all_eq_false]
    refine ⟨c, hc, ?_⟩
    rw [hcs]
    decide
  by_cases hf : h.fileExists
  · by_cases hp : env.preBackupOk
    · simp [apply_changes, hne, hf, hp, create_backup, hall]
    · simp [apply_changes, hne, hf, hp, create_backup]
  · simp [apply_changes, hne, hf, hall]

/-- C1 witness: a single-line batch with an out-of-range row aborts a call
on a concrete handler without touching the document. -/
theorem claim_C1_witness :
    (∃ c ∈ validate_changes ["Update cell ZZ99999999 to Revenue"], c.status = "error")
    ∧ (apply_changes { confirm := "y" } ["Update cell ZZ99999999 to Revenue"]
        { doc := {}, disk := {} }).1 = false
    ∧ ((apply_changes { confirm := "y" } ["Update cell ZZ99999999 to Revenue"]
        { doc := {}, disk := {} }).2).doc = ({} : Doc) := by
  have hex : ∃ c ∈ validate_changes ["Update cell ZZ99999999 to Revenue"],
      c.status = "error" :=
    ⟨validate_one "Update cell ZZ99999999 to Revenue", by
      rw [show validate_changes ["Update cell ZZ99999999 to Revenue"]
          = [validate_one "Update cell ZZ99999999 to Revenue"] from rfl]
      simp, by rfl⟩
  have hc := claim_C1 { confirm := "y" } ["Update cell ZZ99999999 to Revenue"]
    { doc := {}, disk := {} } hex
  exact ⟨hex, hc.1, hc.2.1⟩

/-- C2: for a non-empty batch that validates and applies successfully, a
negative confirmation answer triggers a backup restore and `apply_changes`
returns `False`; the persisted document after the restore equals the live
document at the moment the pre-apply backup was taken (`create_backup` first
saves, so those are also the persisted bytes it copied): backup, mutate,
restore is the identity on the persisted document. -/
theorem claim_C2 (env : Env) (changes : List String) (h : Handler)
    (hne : changes ≠ [])
    (hval : ((validate_changes changes).all fun change => change.status == "valid") = true)
    (hfe : h.fileExists = true)
    (hpre : env.preBackupOk = true)
    (hdry : h.dry_run = false)
    (happ : (apply_validated_changes (validate_changes changes)
        h.doc h.change_history).1 = true)
    (hconf : pyLower env.confirm ≠ "y") :
    (apply_changes env changes h).1 = false
    ∧ ((apply_changes env changes h).2).disk = h.doc
    ∧ ((apply_changes env changes h).2).doc = h.doc := by
  have hne' : changes.isEmpty = false := by
    cases changes with
    | nil => exact absurd rfl hne
    | cons a rest => rfl
  simp [apply_changes, hne', hfe, hpre, create_backup, hval, hdry, happ, hconf,
    restore_from_backup]

/-- C2 witness: a one-line update batch, rejected at the prompt, restores a
concrete document. -/
theorem claim_C2_witness :
    (apply_changes { confirm := "n" } ["Update cell A1 to 5"]
      { doc := {}, disk := {} }).1 = false
    ∧ ((apply_changes { confirm := "n" } ["Update cell A1 to 5"]
      { doc := {}, disk := {} }).2).disk = ({} : Doc) :=
  have hc := claim_C2 { confirm := "n" } ["Update cell A1 to 5"] { doc := {}, disk := {} }
    (by decide) (by rfl) rfl rfl rfl (by rfl) (by decide)
  ⟨hc.1, hc.2.1⟩

/-- C8: for a non-empty batch that validates, applies, and is confirmed, a
failure of the fresh post-commit backup makes `apply_changes` return `False`
while the committed (saved) document state — the document as mutated by the
batch — remains the persisted state on disk. -/
theorem claim_C8 (env : Env) (changes : List String) (h : Handler)
    (hne : changes ≠ [])
    (hval : ((validate_changes changes).all fun change => change.status == "valid") = true)
    (hfe : h.fileExists = true)
    (hpre : env.preBackupOk = true)
    (hdry : h.dry_run = false)
    (happ : (apply_validated_changes (validate_changes changes)
        h.doc h.change_history).1 = true)
    (hconf : pyLower env.confirm = "y")
    (hpost : env.postBackupOk = false) :
    (apply_changes env changes h).1 = false
    ∧ ((apply_changes env changes h).2).disk
      = (apply_validated_changes (validate_changes changes) h.doc h.change_history).2.1 := by
  have hne' : changes.isEmpty = false := by
    cases changes with
    | nil => exact absurd rfl hne
    | cons a rest => rfl
  simp [apply_changes, hne', hfe, hpre, create_backup, hval, hdry, happ, hconf, hpost]

/-- C8 witness: a confirmed one-line batch whose post-commit backup fails
returns failure with the mutated document still persisted. -/
theorem claim_C8_witness :
    (apply_changes { confirm := "y", postBackupOk := false } ["Update cell A1 to 5"]
      { doc := {}, disk := {} }).1 = false
    ∧ ((apply_changes { confirm := "y", postBackupOk := false } ["Update cell A1 to 5"]
      { doc := {}, disk := {} }).2).disk
      = { values := [("A1", OpValue.vNum "5")] } :=
  have hc := claim_C8 { confirm := "y", postBackupOk := false } ["Update cell A1 to 5"]
    { doc := {}, disk := {} } (by decide) (by rfl) rfl rfl rfl (by rfl) (by rfl) rfl
  ⟨hc.1, hc.2.trans (by rfl)⟩

/-- Helper for C9: splitting a well-formed `colrow:colrow` target at the
colon yields the two endpoints. -/
theorem pySplitColon_pair (c1 r1 c2 r2 : String)
    (hc1 : ∀ x ∈ c1.data, isUpperAZ x = true)
    (hr1 : ∀ x ∈ r1.data, isDigit09 x = true)
    (hc2 : ∀ x ∈ c2.data, isUpperAZ x = true)
    (hr2 : ∀ x ∈ r2.data, isDigit09 x = true) :
    pySplitColon (c1 ++ r1 ++ ":" ++ c2 ++ r2) = [c1 ++ r1, c2 ++ r2] := by
  have hleft : ∀ x ∈ c1.data ++ r1.data, (x == ':') = false := by
    intro x hx
    rcases List.mem_append.mp hx with hx' | hx'
    · exact upper_ne_colon (hc1 x hx')
    · exact digit_ne_colon (hr1 x hx')
  have hright : ∀ x ∈ c2.data ++ r2.data, (x == ':') = false := by
    intro x hx
    rcases List.mem_append.mp hx with hx' | hx'
    · exact upper_ne_colon (hc2 x hx')
    · exact digit_ne_colon (hr2 x hx')
  have hdata : (c1 ++ r1 ++ ":" ++ c2 ++ r2).data
      = (c1.data ++ r1.data) ++ ':' :: (c2.data ++ r2.data) := by
    show (((c1.data ++ r1.data) ++ [':']) ++ c2.data) ++ r2.data = _
    simp [List.append_assoc]
  rw [pySplitColon, hdata, splitOnChar_append _ _ hleft, splitOnChar_of_forall_ne hright]
  rfl

/-- C9: applying a NamedRange operation whose target is the well-formed
range `c1r1:c2r2` and whose value is a name `nm` issues exactly one
`names.add` call registering `nm` for the absolute-reference expression
`=Sheet1!$c1$r1:$c2$r2` (the endpoints re-validated through
`_parse_cell_reference` on the way). -/
theorem claim_C9 (c1 r1 c2 r2 nm st : String) (er : Option String) (doc : Doc)
    (hc1 : ∀ x ∈ c1.data, isUpperAZ x = true) (hc1ne : c1.data ≠ [])
    (hc1len : c1.data.length ≤ 3)
    (hr1 : ∀ x ∈ r1.data, isDigit09 x = true) (hr1ne : r1.data ≠ [])
    (hr1lo : 1 ≤ natOfDigits r1.data) (hr1hi : natOfDigits r1.data ≤ 1048576)
    (hc2 : ∀ x ∈ c2.data, isUpperAZ x = true) (hc2ne : c2.data ≠ [])
    (hc2len : c2.data.length ≤ 3)
    (hr2 : ∀ x ∈ r2.data, isDigit09 x = true) (hr2ne : r2.data ≠ [])
    (hr2lo : 1 ≤ natOfDigits r2.data) (hr2hi : natOfDigits r2.data ≤ 1048576) :
    apply_op { operation := .NAMED_RANGE, target := c1 ++ r1 ++ ":" ++ c2 ++ r2,
               value := .vStr nm, status := st, error := er } doc
      = .ok { doc with names := doc.names
          ++ [(.vStr nm,
               "=Sheet1!$" ++ c1 ++ "$" ++ r1 ++ ":$" ++ c2 ++ "$" ++ r2)] } := by
  have hsplit := pySplitColon_pair c1 r1 c2 r2 hc1 hr1 hc2 hr2
  have hp1 := parse_cell_reference_ok_pair c1 r1 hc1 hc1ne hc1len hr1 hr1ne hr1lo hr1hi
  have hp2 := parse_cell_reference_ok_pair c2 r2 hc2 hc2ne hc2len hr2 hr2ne hr2lo hr2hi
  simp only [apply_op, hsplit, hp1, hp2]

/-- C9 witness: the spec scenario — target `A2:A5`, name `BaseRevenue` —
registers `BaseRevenue` for `=Sheet1!$A$2:$A$5`. -/
theorem claim_C9_witness :
    apply_op { operation := .NAMED_RANGE, target := "A2:A5",
               value := .vStr "BaseRevenue", status := "valid", error := none } {}
      = .ok { names := [(.vStr "BaseRevenue", "=Sheet1!$A$2:$A$5")] } := by
  have hc := claim_C9 "A" "2" "A" "5" "BaseRevenue" "valid" none {}
    (by decide) (by decide) (by decide) (by decide) (by decide) (by decide) (by decide)
    (by decide) (by decide) (by decide) (by decide) (by decide) (by decide) (by decide)
  exact hc

end ExcelAutomation
